import Mathlib

/-!
Formal model of the `robust_speech` repository core: the adversarial wav2vec2
pretraining forward pass (`robust_speech/models/wav2vec2_pretrain.py`) and the
ASNRWiener noise-reduction filter
(`robust_speech/adversarial/filters/ASNRWiener.py`).

Tensors are embedded shallowly as `Fin`-indexed functions with rational
entries.  Library submodules that live outside this repository (the feature
encoder and context network, the quantizer, the linear projections, cosine
similarity, the per-row cross-entropy) are abstracted as function-valued
fields of a module record; every computation that the repository's own code
performs (negative gathering, degeneracy masking, target construction,
ignore-index summation, the diversity penalty, loss combination, stage
dispatch, the training-step statement order, and the filter's per-item loop)
is transcribed concretely.
-/

/-- A dense [batch, time, hidden] tensor of rational entries. -/
abbrev Grid (B T H : ℕ) := Fin B → Fin T → Fin H → ℚ

/-- A boolean [batch, time] mask (`mask_time_indices`). -/
abbrev TimeMask (B T : ℕ) := Fin B → Fin T → Bool

/-- Sampled negative indices [batch, time, num_negatives]; each entry points
into the row-major flattened `(B*T)` table of quantized vectors, exactly as
consumed by `quantized_features.view(-1, hidden_size)[...]`. -/
abbrev NegIndices (B T K : ℕ) := Fin B → Fin T → Fin K → Fin (B * T)

/-- The subset of the HuggingFace `Wav2Vec2Config` fields that the rewritten
forward pass reads. -/
structure Wav2Vec2Config where
  num_codevectors_per_group : ℕ
  num_codevector_groups : ℕ
  diversity_loss_weight : ℚ
  contrastive_logits_temperature : ℚ

/-- Total codebook size `num_codevectors_per_group * num_codevector_groups`
(source lines 192-195). -/
def Wav2Vec2Config.num_codevectors (c : Wav2Vec2Config) : ℕ :=
  c.num_codevectors_per_group * c.num_codevector_groups

/-- The submodules of `AdvWav2Vec2ForPreTraining` that are library code
(HuggingFace transformers), abstracted as opaque-to-the-spec but fully
deterministic functions.  `wav2vec2_hidden` is `outputs[0]` (context-network
output), `wav2vec2_extract` is `outputs[1]` (extracted features).
`cross_entropy_row` is the per-row cross-entropy of a `[K+1]` logit row at
target class 0 (the only non-ignored target value the code ever builds). -/
structure W2V2Modules (Wav : Type) (B T H : ℕ) where
  wav2vec2_hidden : Wav → TimeMask B T → Grid B T H
  wav2vec2_extract : Wav → TimeMask B T → Grid B T H
  project_hid : Grid B T H → Grid B T H
  dropout_features : Grid B T H → Grid B T H
  quantizer : Grid B T H → TimeMask B T → Grid B T H × ℚ
  project_q : Grid B T H → Grid B T H
  cosine_similarity : (Fin H → ℚ) → (Fin H → ℚ) → ℚ
  cross_entropy_row : List (WithBot ℚ) → ℚ

/-- Invert the row-major flattening `i = b * T + t` performed by
`view(-1, hidden_size)` on a `[B, T, H]` tensor. -/
def unflatten {B T : ℕ} (i : Fin (B * T)) : Fin B × Fin T :=
  have hT : 0 < T := by
    rcases Nat.eq_zero_or_pos T with h | h
    · subst h
      exact absurd i.isLt (by simp)
    · exact h
  (⟨i.val / T, (Nat.div_lt_iff_lt_mul hT).mpr i.isLt⟩, ⟨i.val % T, Nat.mod_lt _ hT⟩)

/-- Gather the K negative quantized vectors per (batch, time) position from
the flattened table and permute to `[K, B, T, H]` (source lines 159-164). -/
def gatherNegatives {B T K H : ℕ} (quantized_features : Grid B T H)
    (sampled_negative_indices : NegIndices B T K) :
    Fin K → Fin B → Fin T → Fin H → ℚ :=
  fun k b t =>
    quantized_features (unflatten (sampled_negative_indices b t k)).1
      (unflatten (sampled_negative_indices b t k)).2

/-- One similarity logit: cosine similarity between the transformer-projected
feature at (b, t) and a candidate target vector, scaled by the inverse
temperature (`compute_contrastive_logits`, source lines 168-173). -/
def logitOf {Wav : Type} {B T H : ℕ} (m : W2V2Modules Wav B T H)
    (config : Wav2Vec2Config) (transformer_features : Grid B T H)
    (cand : Fin H → ℚ) (b : Fin B) (t : Fin T) : ℚ :=
  m.cosine_similarity (transformer_features b t) cand /
    config.contrastive_logits_temperature

/-- `(quantized_features == negative_quantized_features).all(-1)`
(source line 178): elementwise equality of the negative vector at
(k, b, t) with the positive vector at (b, t), reduced over hidden dim. -/
def neg_is_pos {B T K H : ℕ} (qf : Grid B T H)
    (neg : Fin K → Fin B → Fin T → Fin H → ℚ) (k : Fin K) (b : Fin B)
    (t : Fin T) : Bool :=
  (List.finRange H).all fun h => decide (qf b t h = neg k b t h)

/-- `neg_is_pos.any()` (source line 180). -/
def anyNegIsPos {B T K H : ℕ} (qf : Grid B T H)
    (neg : Fin K → Fin B → Fin T → Fin H → ℚ) : Bool :=
  (List.finRange K).any fun k =>
    (List.finRange B).any fun b =>
      (List.finRange T).any fun t => neg_is_pos qf neg k b t

/-- Negative-slot logits after the degeneracy masking of source lines
175-181: when any negative equals its positive, `logits[1:][neg_is_pos]` is
set to `float("-inf")` (here `⊥ : WithBot ℚ`); all other entries keep their
cosine-similarity value. -/
def maskedNegLogits {Wav : Type} {B T K H : ℕ} (m : W2V2Modules Wav B T H)
    (config : Wav2Vec2Config) (tf qf : Grid B T H)
    (neg : Fin K → Fin B → Fin T → Fin H → ℚ) :
    Fin K → Fin B → Fin T → WithBot ℚ :=
  if anyNegIsPos qf neg then
    fun k b t =>
      if neg_is_pos qf neg k b t then (⊥ : WithBot ℚ)
      else ((logitOf m config tf (neg k b t) b t : ℚ) : WithBot ℚ)
  else fun k b t => ((logitOf m config tf (neg k b t) b t : ℚ) : WithBot ℚ)

/-- The `[K+1]` logit row at flattened position (t, b): slot 0 is the positive
logit (never masked), slots 1..K are the (possibly masked) negative logits. -/
def logitRow {Wav : Type} {B T K H : ℕ} (m : W2V2Modules Wav B T H)
    (config : Wav2Vec2Config) (tf qf : Grid B T H)
    (neg : Fin K → Fin B → Fin T → Fin H → ℚ) (b : Fin B) (t : Fin T) :
    List (WithBot ℚ) :=
  ((logitOf m config tf (qf b t) b t : ℚ) : WithBot ℚ) ::
    ((List.finRange K).map fun k => maskedNegLogits m config tf qf neg k b t)

/-- Target entry `(1 - mask_time_indices.long()) * -100` (source line 186):
class 0 (the positive slot) at masked positions, the `cross_entropy`
ignore-index sentinel `-100` at unmasked positions. -/
def targetAt {B T : ℕ} (mask : TimeMask B T) (b : Fin B) (t : Fin T) : ℤ :=
  (1 - (if mask b t then (1 : ℤ) else 0)) * (-100)

/-- The `(time, batch)` enumeration order produced by `transpose(0, 2)` /
`transpose(0, 1)` followed by flattening (source lines 185-186). -/
def flatOrder (T B : ℕ) : List (Fin T × Fin B) :=
  (List.finRange T).flatMap fun t => (List.finRange B).map fun b => (t, b)

/-- `torch.nn.functional.cross_entropy(logits, target, reduction="sum")`
(source lines 188-190): rows whose target is the ignore sentinel `-100`
contribute nothing; every other row (target class 0) contributes its per-row
cross-entropy; contributions are summed, never averaged. -/
def contrastiveLossOf {Wav : Type} {B T K H : ℕ} (m : W2V2Modules Wav B T H)
    (config : Wav2Vec2Config) (tf qf : Grid B T H) (mask : TimeMask B T)
    (idx : NegIndices B T K) : ℚ :=
  (flatOrder T B).foldr
    (fun p acc =>
      if targetAt mask p.2 p.1 = -100 then acc
      else
        m.cross_entropy_row
            (logitRow m config tf qf (gatherNegatives qf idx) p.2 p.1) +
          acc)
    0

/-- `mask_time_indices.sum()`: the number of masked (batch, time) positions. -/
def maskCount {B T : ℕ} (mask : TimeMask B T) : ℕ :=
  ((flatOrder T B).filter fun p => mask p.2 p.1).length

/-- Diversity loss (source lines 196-198):
`((num_codevectors - codevector_perplexity) / num_codevectors) * mask_time_indices.sum()`. -/
def diversityLossOf {B T : ℕ} (config : Wav2Vec2Config)
    (codevector_perplexity : ℚ) (mask : TimeMask B T) : ℚ :=
  (((config.num_codevectors : ℚ) - codevector_perplexity) /
      (config.num_codevectors : ℚ)) *
    (maskCount mask : ℚ)

/-- The fields of `Wav2Vec2ForPreTrainingOutput` that the repository reads. -/
structure Wav2Vec2ForPreTrainingOutput (B T H : ℕ) where
  loss : Option ℚ
  projected_states : Grid B T H
  projected_quantized_states : Grid B T H
  codevector_perplexity : ℚ
  contrastive_loss : Option ℚ
  diversity_loss : Option ℚ

/-- `AdvWav2Vec2ForPreTraining.forward` (source lines 94-225).
`quantized_representation`, when supplied, is used verbatim as
`(quantized_features, codevector_perplexity)` and the quantizer and its
projection are skipped; otherwise both are computed from the
dropout-regularized extracted features.  Transformer-projected features are
always computed.  When `sampled_negative_indices` is absent no loss is
computed. -/
def AdvWav2Vec2ForPreTraining.forward {Wav : Type} {B T K H : ℕ}
    (m : W2V2Modules Wav B T H) (config : Wav2Vec2Config) (input_values : Wav)
    (mask_time_indices : TimeMask B T)
    (sampled_negative_indices : Option (NegIndices B T K))
    (quantized_representation : Option (Grid B T H × ℚ)) :
    Wav2Vec2ForPreTrainingOutput B T H :=
  let transformer_features :=
    m.project_hid (m.wav2vec2_hidden input_values mask_time_indices)
  let extract_features :=
    m.dropout_features (m.wav2vec2_extract input_values mask_time_indices)
  let qp : Grid B T H × ℚ :=
    match quantized_representation with
    | some p => p
    | none =>
        let z := m.quantizer extract_features mask_time_indices
        (m.project_q z.1, z.2)
  let losses : Option ℚ × Option ℚ × Option ℚ :=
    match sampled_negative_indices with
    | none => (none, none, none)
    | some idx =>
        let contrastive_loss :=
          contrastiveLossOf m config transformer_features qp.1
            mask_time_indices idx
        let diversity_loss :=
          diversityLossOf config qp.2 mask_time_indices
        (some (contrastive_loss +
            config.diversity_loss_weight * diversity_loss),
          some contrastive_loss, some diversity_loss)
  { loss := losses.1
    projected_states := transformer_features
    projected_quantized_states := qp.1
    codevector_perplexity := qp.2
    contrastive_loss := losses.2.1
    diversity_loss := losses.2.2 }

/-- `AdvHuggingFaceWav2Vec2Pretrain` (source lines 228-315): the SpeechBrain
lobe wrapping the rewritten model.  Waveform normalization (`F.layer_norm`),
the span-mask draw (`_compute_mask_indices`) and the negative-index draw
(`_sample_negative_indices`) are library collaborators, modelled as
deterministic functions of the input waveform. -/
structure AdvHuggingFaceWav2Vec2Pretrain (Wav : Type) (B T K H : ℕ) where
  model : W2V2Modules Wav B T H
  config : Wav2Vec2Config
  normalize_wav : Bool
  layer_norm : Wav → Wav
  compute_mask_indices : Wav → TimeMask B T
  sample_negative_indices : Wav → NegIndices B T K

/-- `AdvHuggingFaceWav2Vec2Pretrain.forward` (source lines 263-315): normalize
the waveform if configured, draw the time mask and the full-sentence negative
indices, call the rewritten model forward with the optional precomputed
quantized representation, and return the model output paired with the mask. -/
def AdvHuggingFaceWav2Vec2Pretrain.forward {Wav : Type} {B T K H : ℕ}
    (lobe : AdvHuggingFaceWav2Vec2Pretrain Wav B T K H) (wav : Wav)
    (quantized_representation : Option (Grid B T H × ℚ)) :
    Wav2Vec2ForPreTrainingOutput B T H × TimeMask B T :=
  let wavN := if lobe.normalize_wav then lobe.layer_norm wav else wav
  let torch_mask_time_indices := lobe.compute_mask_indices wav
  let negative_sample_indices := lobe.sample_negative_indices wav
  (AdvWav2Vec2ForPreTraining.forward lobe.model lobe.config wavN
      torch_mask_time_indices (some negative_sample_indices)
      quantized_representation,
    torch_mask_time_indices)

/-- The four execution stages: SpeechBrain's three plus the `rs.Stage.ATTACK`
stage added by robust_speech. -/
inductive RSStage where
  | TRAIN
  | VALID
  | TEST
  | ATTACK
deriving DecidableEq

/-- A batch as seen by `W2VPretrain.compute_forward`: the waveform signal plus
the optional precomputed quantized representation (the dynamic
`hasattr(batch, "quantized_representation")` check modelled as an optional
field). -/
structure PretrainBatch (Wav : Type) (B T H : ℕ) where
  sig : Wav
  quantized_representation : Option (Grid B T H × ℚ)

/-- The two result shapes of `W2VPretrain.compute_forward`: the bare loss for
TRAIN/ATTACK, or the (loss, model output, mask) triple for VALID/TEST. -/
inductive CFResult (B T H : ℕ) where
  | lossOnly (loss : Option ℚ)
  | evalOut (loss : Option ℚ) (out : Wav2Vec2ForPreTrainingOutput B T H)
      (mask : TimeMask B T)

/-- `W2VPretrain.compute_forward` (source lines 333-359).  Device transfer
(`batch.to(self.device)`, skipped in ATTACK stage to preserve the gradient
path) is value-preserving, so the waveform values are used unchanged in every
stage.  The forward is dispatched on the presence of a precomputed quantized
representation; ATTACK reports `out.contrastive_loss`, all other stages
report `out.loss`; VALID/TEST additionally return the output and mask. -/
def W2VPretrain.compute_forward {Wav : Type} {B T K H : ℕ}
    (lobe : AdvHuggingFaceWav2Vec2Pretrain Wav B T K H)
    (batch : PretrainBatch Wav B T H) (stage : RSStage) : CFResult B T H :=
  let wavs := batch.sig
  let r :=
    match batch.quantized_representation with
    | some q => lobe.forward wavs (some q)
    | none => lobe.forward wavs none
  let loss :=
    if stage = RSStage.ATTACK then r.1.contrastive_loss else r.1.loss
  if stage ≠ RSStage.TRAIN ∧ stage ≠ RSStage.ATTACK then
    CFResult.evalOut loss r.1 r.2
  else CFResult.lossOnly loss

/-- The statements executed by `W2VPretrain.fit_batch` /
`fit_batch_adversarial`, in program order. -/
inductive TrainOp where
  | computeForward (adversarial : Bool)
  | computeObjectives
  | scaledBackward
  | plainBackward
  | checkGradients
  | scalerUnscale
  | scalerStep
  | scalerUpdate
  | optimizerStep
  | optimizerZeroGrad
  | noamAnnealing
deriving DecidableEq, BEq

/-- The accumulation-boundary suffix of the mixed-precision branch of
`fit_batch` (source lines 402-412), in statement order: `check_gradients`,
then `scaler.unscale_`, `scaler.step`, `scaler.update`,
`optimizer.zero_grad`, `noam_annealing`. -/
def boundaryOpsAMP : List TrainOp :=
  [TrainOp.checkGradients, TrainOp.scalerUnscale, TrainOp.scalerStep,
    TrainOp.scalerUpdate, TrainOp.optimizerZeroGrad, TrainOp.noamAnnealing]

/-- The accumulation-boundary suffix of the non-mixed-precision branch
(source lines 420-428). -/
def boundaryOpsPlain : List TrainOp :=
  [TrainOp.checkGradients, TrainOp.optimizerStep, TrainOp.optimizerZeroGrad,
    TrainOp.noamAnnealing]

/-- `W2VPretrain.fit_batch` (source lines 390-430) as its statement trace. -/
def fit_batch (auto_mix_prec : Bool) (step gradient_accumulation : ℕ) :
    List TrainOp :=
  if auto_mix_prec then
    [TrainOp.computeForward false, TrainOp.computeObjectives,
        TrainOp.scaledBackward] ++
      (if step % gradient_accumulation = 0 then boundaryOpsAMP else [])
  else
    [TrainOp.computeForward false, TrainOp.computeObjectives,
        TrainOp.plainBackward] ++
      (if step % gradient_accumulation = 0 then boundaryOpsPlain else [])

/-- `W2VPretrain.fit_batch_adversarial` (source lines 432-472) as its
statement trace.  The mixed-precision branch calls
`compute_forward_adversarial`; the non-mixed-precision branch calls the plain
`compute_forward` (source line 456). -/
def fit_batch_adversarial (auto_mix_prec : Bool)
    (step gradient_accumulation : ℕ) : List TrainOp :=
  if auto_mix_prec then
    [TrainOp.computeForward true, TrainOp.computeObjectives,
        TrainOp.scaledBackward] ++
      (if step % gradient_accumulation = 0 then boundaryOpsAMP else [])
  else
    [TrainOp.computeForward false, TrainOp.computeObjectives,
        TrainOp.plainBackward] ++
      (if step % gradient_accumulation = 0 then boundaryOpsPlain else [])

/-- Gradient-scaledness after executing one statement: `scaler.scale(...)
.backward()` leaves scaled gradients; `scaler.unscale_` removes the scale;
`scaler.step` unscales internally (if not already done) before stepping. -/
def gradsScaledAfter (scaled : Bool) : TrainOp → Bool
  | TrainOp.scaledBackward => true
  | TrainOp.scalerUnscale => false
  | TrainOp.scalerStep => false
  | _ => scaled

/-- Annotate each statement of a trace with the gradient-scaledness it
observes (the scaledness in force just before it executes). -/
def annotateScaled (scaled : Bool) : List TrainOp → List (TrainOp × Bool)
  | [] => []
  | op :: rest => (op, scaled) :: annotateScaled (gradsScaledAfter scaled op) rest

/-- Python objects as far as the filter's assert statements need them. -/
inductive PyObj where
  | pyBool (b : Bool)
  | pyStr (s : String)
  | pyTuple (elems : List PyObj)

/-- Python truthiness: a bool is itself, a string is truthy iff nonempty, a
tuple is truthy iff nonempty.  In particular every 2-tuple is truthy. -/
def PyObj.truthy : PyObj → Bool
  | PyObj.pyBool b => b
  | PyObj.pyStr s => decide (s ≠ "")
  | PyObj.pyTuple es => !es.isEmpty

/-- The runtime errors the filter code can raise. -/
inductive PyErr where
  | assertionError (msg : String)
  | keyError (key : String)
  | nameError (nm : String)
deriving DecidableEq

/-- A configuration-dictionary value: numeric or boolean. -/
inductive CfgVal where
  | num (q : ℚ)
  | flag (b : Bool)
deriving DecidableEq

/-- `filter_config`: a Python dict modelled as an association list. -/
abbrev FilterConfig := List (String × CfgVal)

/-- `key in filter_config`. -/
def FilterConfig.containsKey (cfg : FilterConfig) (k : String) : Bool :=
  cfg.any fun p => p.1 == k

/-- Python `assert expr`: raises `AssertionError` iff `expr` is falsy. -/
def pyAssert (cond : Bool) (msg : String) : Except PyErr Unit :=
  if cond then Except.ok () else Except.error (PyErr.assertionError msg)

/-- `filter_config[key]`: raises `KeyError` when the key is absent. -/
def getItem (cfg : FilterConfig) (k : String) : Except PyErr CfgVal :=
  match cfg.lookup k with
  | some v => Except.ok v
  | none => Except.error (PyErr.keyError k)

/-- Python `int(...)` on a config value (truncation toward zero; bools map to
0/1). -/
def pyInt : CfgVal → ℤ
  | CfgVal.num q => if 0 ≤ q then ⌊q⌋ else ⌈q⌉
  | CfgVal.flag b => if b then 1 else 0

/-- Python `float(...)` on a config value. -/
def pyFloat : CfgVal → ℚ
  | CfgVal.num q => q
  | CfgVal.flag b => if b then 1 else 0

/-- Python truthiness of a config value (used by `if self.high_freq:`). -/
def CfgVal.truthy : CfgVal → Bool
  | CfgVal.num q => decide (q ≠ 0)
  | CfgVal.flag b => b

/-- The `ASNRWiener` filter state after construction. -/
structure ASNRWiener where
  sr : ℤ
  nfft : ℤ
  hop : ℤ
  gaussian_sigma : ℚ
  lpc_order : ℤ
  high_freq : Bool
deriving DecidableEq

/-- `ASNRWiener.__init__` (source lines 7-23).  Each
`assert('k' in filter_config, "k not in filter_config")` statement asserts a
2-tuple `(condition, message)`, and a nonempty tuple is always truthy, so
these asserts can never raise; the subsequent subscript accesses are what
fail (with `KeyError`) when a required key is missing.  The `hamming` window
construction is external and value-irrelevant here. -/
def ASNRWiener.init (filter_config : FilterConfig) : Except PyErr ASNRWiener := do
  pyAssert
    (PyObj.truthy (PyObj.pyTuple
      [PyObj.pyBool (filter_config.containsKey "sr"),
        PyObj.pyStr "sr not in filter_config"]))
    "sr not in filter_config"
  pyAssert
    (PyObj.truthy (PyObj.pyTuple
      [PyObj.pyBool (filter_config.containsKey "nfft"),
        PyObj.pyStr "nfft not in filter_config"]))
    "nfft not in filter_config"
  pyAssert
    (PyObj.truthy (PyObj.pyTuple
      [PyObj.pyBool (filter_config.containsKey "hop"),
        PyObj.pyStr "hop not in filter_config"]))
    "hop not in filter_config"
  let srv ← getItem filter_config "sr"
  let nfftv ← getItem filter_config "nfft"
  let hopv ← getItem filter_config "hop"
  let gaussian_sigma :=
    match filter_config.lookup "gaussian_sigma" with
    | some v => pyFloat v
    | none => 0
  let high_freq :=
    match filter_config.lookup "high_freq" with
    | some v => v.truthy
    | none => true
  pure
    { sr := pyInt srv, nfft := pyInt nfftv, hop := pyInt hopv,
      gaussian_sigma := gaussian_sigma, lpc_order := 12,
      high_freq := high_freq }

/-- An IEEE-style sample value: a finite rational, a signed infinity, or NaN. -/
inductive RVal where
  | fin (q : ℚ)
  | posInf
  | negInf
  | nan
deriving DecidableEq

/-- `np.isnan` on one sample. -/
def RVal.isNan : RVal → Bool
  | RVal.nan => true
  | _ => false

/-- Finiteness of one sample (NaN and the infinities are non-finite). -/
def RVal.isFiniteVal : RVal → Bool
  | RVal.fin _ => true
  | _ => false

/-- IEEE addition on the sample domain. -/
def RVal.add : RVal → RVal → RVal
  | RVal.nan, _ => RVal.nan
  | _, RVal.nan => RVal.nan
  | RVal.posInf, RVal.negInf => RVal.nan
  | RVal.negInf, RVal.posInf => RVal.nan
  | RVal.posInf, _ => RVal.posInf
  | _, RVal.posInf => RVal.posInf
  | RVal.negInf, _ => RVal.negInf
  | _, RVal.negInf => RVal.negInf
  | RVal.fin a, RVal.fin b => RVal.fin (a + b)

/-- Sum of a sample list. -/
def rsum (xs : List RVal) : RVal :=
  xs.foldr RVal.add (RVal.fin 0)

/-- Division of a sample by a positive count (`np.mean` denominator). -/
def rdivNat (x : RVal) (n : ℕ) : RVal :=
  match x with
  | RVal.fin q => RVal.fin (q / (n : ℚ))
  | RVal.posInf => RVal.posInf
  | RVal.negInf => RVal.negInf
  | RVal.nan => RVal.nan

/-- `np.mean` of a sample list (NaN on an empty list). -/
def rmean (xs : List RVal) : RVal :=
  if xs.isEmpty then RVal.nan else rdivNat (rsum xs) xs.length

/-- `np.pad(filtered_output, mode="mean", pad_width=(0, n - len))`
(source line 36): append copies of the mean of the existing samples. -/
def padMean (ys : List RVal) (n : ℕ) : List RVal :=
  ys ++ List.replicate (n - ys.length) (rmean ys)

/-- The pad-or-truncate step of `ASNRWiener.__call__` (source lines 35-38):
mean-pad when shorter than the input item, truncate when longer. -/
def fitLength (ys : List RVal) (n : ℕ) : List RVal :=
  if ys.length < n then padMean ys n
  else if n < ys.length then ys.take n
  else ys

/-- The per-item body of `ASNRWiener.__call__` after the `asnr` call
(source lines 33-40): pad or truncate the filter output to the item length,
then write it back only when it contains no NaN (`np.isnan(...).any()`),
otherwise keep the unfiltered item.  `asnrOut` abstracts the external
`audlib.enhance.asnr` call (noise draw included). -/
def wienerItem (asnrOut : List RVal → List RVal) (xi : List RVal) :
    List RVal :=
  let filtered_output := fitLength (asnrOut xi) xi.length
  if filtered_output.any RVal.isNan then xi else filtered_output

/-- The noise-construction step at the top of each loop iteration (source
lines 28-32).  In the low-frequency branch the conditional expression
`np.random.normal(...).astype(ART_NUMPY_DTYPE) if self.gaussian_sigma else
None` evaluates its left arm whenever `gaussian_sigma` is truthy, and
`ART_NUMPY_DTYPE` is never defined or imported in the module, so that arm
raises `NameError`.  The high-frequency branch references only defined
names. -/
def computeNoise (flt : ASNRWiener) : Except PyErr Unit :=
  if flt.high_freq then Except.ok ()
  else if flt.gaussian_sigma ≠ 0 then
    Except.error (PyErr.nameError "ART_NUMPY_DTYPE")
  else Except.ok ()

/-- `ASNRWiener.__call__` (source lines 25-41): iterate over the batch items;
each iteration draws the noise (which can raise), filters, pads/truncates,
NaN-checks and writes back. -/
def ASNRWiener.call (flt : ASNRWiener) (asnrOut : List RVal → List RVal) :
    List (List RVal) → Except PyErr (List (List RVal))
  | [] => Except.ok []
  | xi :: rest =>
      match computeNoise flt with
      | Except.error e => Except.error e
      | Except.ok _ =>
          match ASNRWiener.call flt asnrOut rest with
          | Except.error e => Except.error e
          | Except.ok ys => Except.ok (wienerItem asnrOut xi :: ys)

/-! Concrete instances used to exercise the model on closed inputs. -/

/-- A small concrete configuration (2 codevectors in one group). -/
def demoCfg : Wav2Vec2Config :=
  { num_codevectors_per_group := 2, num_codevector_groups := 1,
    diversity_loss_weight := 1 / 10, contrastive_logits_temperature := 1 / 10 }

/-- Concrete deterministic submodules over a unit waveform type and 1x1x1
tensors. -/
def demoModules : W2V2Modules Unit 1 1 1 :=
  { wav2vec2_hidden := fun _ _ _ _ _ => 0
    wav2vec2_extract := fun _ _ _ _ _ => 0
    project_hid := id
    dropout_features := id
    quantizer := fun g _ => (g, 1)
    project_q := id
    cosine_similarity := fun _ _ => 0
    cross_entropy_row := fun _ => 0 }

/-- The all-zero 1x1x1 tensor. -/
def demoGrid : Grid 1 1 1 := fun _ _ _ => 0

/-- The unique valid negative-index tensor at sizes 1x1x1. -/
def demoIdx : NegIndices 1 1 1 := fun _ _ _ => ⟨0, by decide⟩

/-- The all-true 1x1 time mask. -/
def demoMaskOn : TimeMask 1 1 := fun _ _ => true

/-- The all-false 1x1 time mask. -/
def demoMaskOff : TimeMask 1 1 := fun _ _ => false

/-- A concrete lobe over the demo modules. -/
def demoLobe : AdvHuggingFaceWav2Vec2Pretrain Unit 1 1 1 1 :=
  { model := demoModules, config := demoCfg, normalize_wav := true,
    layer_norm := id, compute_mask_indices := fun _ => demoMaskOn,
    sample_negative_indices := fun _ => demoIdx }

/-- A filter in the default high-frequency mode with zero noise. -/
def demoHighFreqFilter : ASNRWiener :=
  { sr := 16000, nfft := 512, hop := 128, gaussian_sigma := 0,
    lpc_order := 12, high_freq := true }

/-- A filter in low-frequency mode with positive noise sigma. -/
def demoLowFreqFilter : ASNRWiener :=
  { sr := 16000, nfft := 512, hop := 128, gaussian_sigma := 1,
    lpc_order := 12, high_freq := false }

/-! Helper lemmas. -/

/-- `neg_is_pos` is exactly elementwise vector equality at (k, b, t). -/
lemma neg_is_pos_iff {B T K H : ℕ} (qf : Grid B T H)
    (neg : Fin K → Fin B → Fin T → Fin H → ℚ) (k : Fin K) (b : Fin B)
    (t : Fin T) :
    neg_is_pos qf neg k b t = true ↔ ∀ h, qf b t h = neg k b t h := by
  constructor
  · intro hall h
    exact of_decide_eq_true
      (List.all_eq_true.mp hall h (List.mem_finRange h))
  · intro hv
    exact List.all_eq_true.mpr fun h _ => decide_eq_true (hv h)

/-- A degenerate position makes the global `neg_is_pos.any()` test fire. -/
lemma anyNegIsPos_of_pos {B T K H : ℕ} (qf : Grid B T H)
    (neg : Fin K → Fin B → Fin T → Fin H → ℚ) (k : Fin K) (b : Fin B)
    (t : Fin T) (h : neg_is_pos qf neg k b t = true) :
    anyNegIsPos qf neg = true := by
  refine List.any_eq_true.mpr ⟨k, List.mem_finRange k, ?_⟩
  refine List.any_eq_true.mpr ⟨b, List.mem_finRange b, ?_⟩
  exact List.any_eq_true.mpr ⟨t, List.mem_finRange t, h⟩

/-! Claim theorems. -/

/-- C1: for a fixed waveform, calling the pretraining forward with
`quantized_representation = None` and then again with the captured
`(projected_quantized_states, codevector_perplexity)` pair supplied
externally produces identical transformer features, quantized features,
perplexity, loss and mask. -/
theorem C1_precomputed_quantized_equivalence {Wav : Type} {B T K H : ℕ}
    (lobe : AdvHuggingFaceWav2Vec2Pretrain Wav B T K H) (wav : Wav) :
    (lobe.forward wav
          (some ((lobe.forward wav none).1.projected_quantized_states,
            (lobe.forward wav none).1.codevector_perplexity))).1.projected_states =
        (lobe.forward wav none).1.projected_states ∧
      (lobe.forward wav
          (some ((lobe.forward wav none).1.projected_quantized_states,
            (lobe.forward wav none).1.codevector_perplexity))).1.projected_quantized_states =
        (lobe.forward wav none).1.projected_quantized_states ∧
      (lobe.forward wav
          (some ((lobe.forward wav none).1.projected_quantized_states,
            (lobe.forward wav none).1.codevector_perplexity))).1.codevector_perplexity =
        (lobe.forward wav none).1.codevector_perplexity ∧
      (lobe.forward wav
          (some ((lobe.forward wav none).1.projected_quantized_states,
            (lobe.forward wav none).1.codevector_perplexity))).1.loss =
        (lobe.forward wav none).1.loss ∧
      (lobe.forward wav
          (some ((lobe.forward wav none).1.projected_quantized_states,
            (lobe.forward wav none).1.codevector_perplexity))).2 =
        (lobe.forward wav none).2 :=
  ⟨rfl, rfl, rfl, rfl, rfl⟩

/-- C2: in the contrastive-logit construction, a negative slot is forced to
negative infinity exactly when its gathered negative vector equals the
positive vector elementwise at that (batch, time) position; slots whose
negative differs keep their cosine-similarity logit unchanged, and the
positive slot (index 0 of the row) is never masked.  The rule is per element
of the `[K, B, T]` grid, not per batch. -/
theorem C2_degeneracy_masking {Wav : Type} {B T K H : ℕ}
    (m : W2V2Modules Wav B T H) (config : Wav2Vec2Config)
    (tf qf : Grid B T H) (idx : NegIndices B T K) (k : Fin K) (b : Fin B)
    (t : Fin T) :
    ((∀ h, qf b t h = gatherNegatives qf idx k b t h) →
        maskedNegLogits m config tf qf (gatherNegatives qf idx) k b t = ⊥) ∧
      ((¬ ∀ h, qf b t h = gatherNegatives qf idx k b t h) →
        maskedNegLogits m config tf qf (gatherNegatives qf idx) k b t =
          ((logitOf m config tf (gatherNegatives qf idx k b t) b t : ℚ) :
            WithBot ℚ)) ∧
      (logitRow m config tf qf (gatherNegatives qf idx) b t).head? =
        some ((logitOf m config tf (qf b t) b t : ℚ) : WithBot ℚ) := by
  refine ⟨?_, ?_, rfl⟩
  · intro hv
    have hb : neg_is_pos qf (gatherNegatives qf idx) k b t = true :=
      (neg_is_pos_iff qf (gatherNegatives qf idx) k b t).mpr hv
    have hA := anyNegIsPos_of_pos qf (gatherNegatives qf idx) k b t hb
    simp [maskedNegLogits, hA, hb]
  · intro hv
    have hb : neg_is_pos qf (gatherNegatives qf idx) k b t = false :=
      Bool.eq_false_iff.mpr fun hb =>
        hv ((neg_is_pos_iff qf (gatherNegatives qf idx) k b t).mp hb)
    by_cases hA : anyNegIsPos qf (gatherNegatives qf idx) = true
    · simp [maskedNegLogits, hA, hb]
    · simp [maskedNegLogits, hA]

/-- Witness for C2 at concrete sizes: the unique negative points back at the
positive vector, so its logit is masked to bottom. -/
theorem C2_degeneracy_masking_witness :
    maskedNegLogits demoModules demoCfg demoGrid demoGrid
        (gatherNegatives demoGrid demoIdx) 0 0 0 = ⊥ :=
  (C2_degeneracy_masking demoModules demoCfg demoGrid demoGrid demoIdx
      0 0 0).1 (by decide)

/-- Every position of an entirely-false mask yields the ignore target, so the
summed cross-entropy folds to zero over any enumeration order. -/
lemma ceFold_all_ignored {Wav : Type} {B T K H : ℕ} (m : W2V2Modules Wav B T H)
    (config : Wav2Vec2Config) (tf qf : Grid B T H) (mask : TimeMask B T)
    (idx : NegIndices B T K) (hmask : ∀ b t, mask b t = false)
    (L : List (Fin T × Fin B)) :
    L.foldr
        (fun p acc =>
          if targetAt mask p.2 p.1 = -100 then acc
          else
            m.cross_entropy_row
                (logitRow m config tf qf (gatherNegatives qf idx) p.2 p.1) +
              acc)
        0 = (0 : ℚ) := by
  induction L with
  | nil => rfl
  | cons p L ih =>
      have ht : targetAt mask p.2 p.1 = -100 := by
        simp [targetAt, hmask]
      simp [ht, ih]

/-- C5: with negatives supplied and `mask_time_indices` entirely false, the
contrastive loss is exactly 0 (no position contributes, no division occurs in
the sum reduction), and the target vector construction places class 0 at
masked positions and the ignore sentinel `-100` at unmasked positions. -/
theorem C5_unmasked_exclusion {Wav : Type} {B T K H : ℕ}
    (m : W2V2Modules Wav B T H) (config : Wav2Vec2Config) (wav : Wav)
    (mask : TimeMask B T) (idx : NegIndices B T K)
    (qr : Option (Grid B T H × ℚ)) (hmask : ∀ b t, mask b t = false) :
    (AdvWav2Vec2ForPreTraining.forward m config wav mask (some idx)
          qr).contrastive_loss = some 0 ∧
      ∀ b t, targetAt mask b t = if mask b t then 0 else -100 := by
  constructor
  · show some (contrastiveLossOf m config _ _ mask idx) = some 0
    refine congrArg some ?_
    exact ceFold_all_ignored m config _ _ mask idx hmask (flatOrder T B)
  · intro b t
    by_cases hb : mask b t <;> simp [targetAt, hb]

/-- Witness for C5 at concrete sizes with the all-false mask. -/
theorem C5_unmasked_exclusion_witness :
    (∀ b t : Fin 1, demoMaskOff b t = false) ∧
      ((AdvWav2Vec2ForPreTraining.forward demoModules demoCfg () demoMaskOff
            (some demoIdx) none).contrastive_loss = some 0 ∧
        ∀ b t : Fin 1,
          targetAt demoMaskOff b t = if demoMaskOff b t then 0 else -100) :=
  ⟨by decide,
    C5_unmasked_exclusion demoModules demoCfg () demoMaskOff demoIdx none
      (by decide)⟩

/-- C6: for every loss-computing forward call the diversity loss equals
`((num_codevectors - perplexity) / num_codevectors) * (masked-position
count)`; with the mask fixed, nonempty, and a positive codebook size it is
strictly decreasing in the perplexity and reaches 0 exactly at
`perplexity = num_codevectors`; and the composite loss is the contrastive
loss plus the configured weight times the diversity loss. -/
theorem C6_diversity_loss_shape {Wav : Type} {B T K H : ℕ}
    (m : W2V2Modules Wav B T H) (config : Wav2Vec2Config) (wav : Wav)
    (mask : TimeMask B T) (idx : NegIndices B T K)
    (qr : Option (Grid B T H × ℚ)) (hn : 0 < config.num_codevectors)
    (hm : 0 < maskCount mask) :
    ((AdvWav2Vec2ForPreTraining.forward m config wav mask (some idx)
          qr).diversity_loss =
        some (diversityLossOf config
          (AdvWav2Vec2ForPreTraining.forward m config wav mask (some idx)
              qr).codevector_perplexity mask)) ∧
      (∀ perp : ℚ,
        diversityLossOf config perp mask =
          (((config.num_codevectors : ℚ) - perp) /
              (config.num_codevectors : ℚ)) *
            (maskCount mask : ℚ)) ∧
      (∀ p1 p2 : ℚ, p1 < p2 →
        diversityLossOf config p2 mask < diversityLossOf config p1 mask) ∧
      diversityLossOf config (config.num_codevectors : ℚ) mask = 0 ∧
      ((AdvWav2Vec2ForPreTraining.forward m config wav mask (some idx)
          qr).loss =
        some ((AdvWav2Vec2ForPreTraining.forward m config wav mask (some idx)
              qr).contrastive_loss.getD 0 +
          config.diversity_loss_weight *
            (AdvWav2Vec2ForPreTraining.forward m config wav mask (some idx)
                qr).diversity_loss.getD 0)) := by
  have hn' : (0 : ℚ) < (config.num_codevectors : ℚ) := by exact_mod_cast hn
  have hm' : (0 : ℚ) < (maskCount mask : ℚ) := by exact_mod_cast hm
  refine ⟨rfl, fun perp => rfl, ?_, ?_, rfl⟩
  · intro p1 p2 hp
    unfold diversityLossOf
    refine mul_lt_mul_of_pos_right ?_ hm'
    exact (div_lt_div_iff_of_pos_right hn').mpr (sub_lt_sub_left hp _)
  · simp [diversityLossOf]

/-- Witness for C6 at concrete sizes: one masked position, two codevectors;
the diversity loss vanishes at full perplexity. -/
theorem C6_diversity_loss_shape_witness :
    0 < demoCfg.num_codevectors ∧ 0 < maskCount demoMaskOn ∧
      diversityLossOf demoCfg (demoCfg.num_codevectors : ℚ) demoMaskOn = 0 :=
  ⟨by decide, by decide,
    (C6_diversity_loss_shape demoModules demoCfg () demoMaskOn demoIdx none
        (by decide) (by decide)).2.2.2.1⟩

/-- C8: `compute_forward` runs one and the same forward computation (the lobe
applied to the batch signal and its optional precomputed quantized
representation) in both ATTACK and TRAIN stages; ATTACK reports the raw
contrastive loss, TRAIN reports the model's composite loss, which equals the
contrastive loss plus the configured weight times the diversity loss. -/
theorem C8_stage_loss_selection {Wav : Type} {B T K H : ℕ}
    (lobe : AdvHuggingFaceWav2Vec2Pretrain Wav B T K H)
    (batch : PretrainBatch Wav B T H) :
    (W2VPretrain.compute_forward lobe batch RSStage.ATTACK =
        CFResult.lossOnly
          (lobe.forward batch.sig
              batch.quantized_representation).1.contrastive_loss) ∧
      (W2VPretrain.compute_forward lobe batch RSStage.TRAIN =
        CFResult.lossOnly
          (lobe.forward batch.sig batch.quantized_representation).1.loss) ∧
      ((lobe.forward batch.sig batch.quantized_representation).1.loss =
        some ((lobe.forward batch.sig
              batch.quantized_representation).1.contrastive_loss.getD 0 +
          lobe.config.diversity_loss_weight *
            (lobe.forward batch.sig
                batch.quantized_representation).1.diversity_loss.getD 0)) := by
  rcases batch with ⟨sig, _ | q⟩ <;> exact ⟨rfl, rfl, rfl⟩

/-- C9: with mixed precision disabled, `fit_batch_adversarial` executes
exactly the statement trace of the clean `fit_batch` (in particular it calls
the clean `compute_forward`, never the adversarial one), while its
mixed-precision branch calls the adversarial forward — so the two branches
of `fit_batch_adversarial` do not run the same forward computation. -/
theorem C9_nonamp_adversarial_is_clean :
    (∀ step gradient_accumulation : ℕ,
        fit_batch_adversarial false step gradient_accumulation =
          fit_batch false step gradient_accumulation) ∧
      (fit_batch_adversarial false 1 1).contains
          (TrainOp.computeForward false) = true ∧
      (fit_batch_adversarial false 1 1).contains
          (TrainOp.computeForward true) = false ∧
      (fit_batch_adversarial true 1 1).contains
          (TrainOp.computeForward true) = true ∧
      (fit_batch_adversarial true 1 1 ==
          fit_batch_adversarial false 1 1) = false :=
  ⟨fun _ _ => rfl, by decide, by decide, by decide, by decide⟩

/-- C4: on the mixed-precision path of `fit_batch`, at an accumulation
boundary the statement trace runs `check_gradients` while the gradients are
still scaled; `scaler.unscale_` only executes afterwards.  (The optimizer
step itself does observe unscaled gradients.)  This contradicts the claim
that the clip-check observes unscaled gradients. -/
theorem C4_clip_check_observes_scaled_gradients :
    annotateScaled false (fit_batch true 1 1) =
      [(TrainOp.computeForward false, false), (TrainOp.computeObjectives, false),
        (TrainOp.scaledBackward, false), (TrainOp.checkGradients, true),
        (TrainOp.scalerUnscale, true), (TrainOp.scalerStep, false),
        (TrainOp.scalerUpdate, false), (TrainOp.optimizerZeroGrad, false),
        (TrainOp.noamAnnealing, false)] := by
  decide

/-- The noise-construction step succeeds whenever the filter is in
high-frequency mode or has zero sigma. -/
lemma computeNoise_ok {flt : ASNRWiener}
    (hok : flt.high_freq = true ∨ flt.gaussian_sigma = 0) :
    computeNoise flt = Except.ok () := by
  unfold computeNoise
  rcases hok with h | h
  · simp [h]
  · cases hf : flt.high_freq <;> simp [h]

/-- With a usable noise configuration, `__call__` maps the per-item body over
the whole batch. -/
lemma call_eq_map {flt : ASNRWiener} (asnrOut : List RVal → List RVal)
    (hok : flt.high_freq = true ∨ flt.gaussian_sigma = 0)
    (x : List (List RVal)) :
    ASNRWiener.call flt asnrOut x = Except.ok (x.map (wienerItem asnrOut)) := by
  induction x with
  | nil => rfl
  | cons xi rest ih =>
      unfold ASNRWiener.call
      rw [computeNoise_ok hok, ih]
      rfl

/-- The pad-or-truncate step always produces exactly the input item length. -/
lemma fitLength_length (ys : List RVal) (n : ℕ) :
    (fitLength ys n).length = n := by
  unfold fitLength padMean
  split
  · simp
    omega
  · split
    · simp
      omega
    · omega

/-- The per-item body preserves the item's length. -/
lemma wienerItem_length (asnrOut : List RVal → List RVal) (xi : List RVal) :
    (wienerItem asnrOut xi).length = xi.length := by
  by_cases h : (fitLength (asnrOut xi) xi.length).any RVal.isNan = true
  · simp [wienerItem, h]
  · simp [wienerItem, h, fitLength_length]

/-- C3: constructing `ASNRWiener` from a configuration missing the required
key `sr` (for instance the empty configuration, or one carrying only `nfft`
and `hop`) does fail at construction, but with a `KeyError` raised by the
subscript access, not with an assertion (precondition) failure: each
`assert('k' in filter_config, "...")` statement asserts a nonempty tuple,
which is always truthy. -/
theorem C3_missing_key_raises_keyerror :
    ASNRWiener.init [] = Except.error (PyErr.keyError "sr") ∧
      ASNRWiener.init [("nfft", CfgVal.num 512), ("hop", CfgVal.num 128)] =
        Except.error (PyErr.keyError "sr") ∧
      PyObj.truthy (PyObj.pyTuple
          [PyObj.pyBool false, PyObj.pyStr "sr not in filter_config"]) =
        true :=
  ⟨rfl, rfl, rfl⟩

/-- C7 counterexample: a filtered item equal to `[+inf]` contains a
non-finite value yet no NaN, so `__call__` writes it back over the clean
sample `[0]` instead of discarding it — the fallback triggers on NaN only,
not on all non-finite values. -/
theorem C7_nonfinite_propagated_counterexample :
    ASNRWiener.call demoHighFreqFilter (fun _ => [RVal.posInf])
        [[RVal.fin 0]] = Except.ok [[RVal.posInf]] ∧
      RVal.posInf.isFiniteVal = false ∧
      decide (([RVal.posInf] : List RVal) = [RVal.fin 0]) = false := by
  refine ⟨?_, rfl, by decide⟩
  rw [call_eq_map (fun _ => [RVal.posInf]) (Or.inl rfl) [[RVal.fin 0]]]
  rfl

/-- C7 amended: per item, the filtered output (padded with the mean of its
existing samples, or truncated, to the exact input length) replaces the item
exactly when it contains no NaN; an output containing NaN is silently
discarded and the unfiltered item kept; the result always has the item's
input length. -/
theorem C7_nan_fallback_and_length {flt : ASNRWiener}
    (asnrOut : List RVal → List RVal) (x : List (List RVal))
    (hok : flt.high_freq = true ∨ flt.gaussian_sigma = 0) :
    ASNRWiener.call flt asnrOut x = Except.ok (x.map (wienerItem asnrOut)) ∧
      ∀ xi : List RVal,
        ((fitLength (asnrOut xi) xi.length).any RVal.isNan = true →
            wienerItem asnrOut xi = xi) ∧
          ((fitLength (asnrOut xi) xi.length).any RVal.isNan = false →
            wienerItem asnrOut xi = fitLength (asnrOut xi) xi.length) ∧
          (wienerItem asnrOut xi).length = xi.length ∧
          ((asnrOut xi).length < xi.length →
            fitLength (asnrOut xi) xi.length =
              asnrOut xi ++
                List.replicate (xi.length - (asnrOut xi).length)
                  (rmean (asnrOut xi))) := by
  refine ⟨call_eq_map asnrOut hok x, fun xi => ⟨?_, ?_, wienerItem_length asnrOut xi, ?_⟩⟩
  · intro hnan
    simp [wienerItem, hnan]
  · intro hnan
    simp [wienerItem, hnan]
  · intro hlt
    unfold fitLength
    rw [if_pos hlt]
    rfl

/-- Witness for the amended C7 on a concrete batch: a finite filtered output
replaces the item. -/
theorem C7_nan_fallback_and_length_witness :
    (demoHighFreqFilter.high_freq = true ∨
        demoHighFreqFilter.gaussian_sigma = 0) ∧
      ASNRWiener.call demoHighFreqFilter (fun _ => [RVal.fin 1])
          [[RVal.fin 0]] =
        Except.ok ([[RVal.fin 0]].map (wienerItem (fun _ => [RVal.fin 1]))) :=
  ⟨Or.inl rfl,
    (C7_nan_fallback_and_length (fun _ => [RVal.fin 1]) [[RVal.fin 0]]
        (Or.inl rfl)).1⟩

/-- C10: on a filter configured with `high_freq` false and positive
`gaussian_sigma`, any call on a nonempty batch takes the low-frequency noise
branch, whose left arm references the undefined name `ART_NUMPY_DTYPE` and
therefore raises `NameError`; with `high_freq` true or `gaussian_sigma` zero
the call always succeeds. -/
theorem C10_lowfreq_branch_nameerror (flt : ASNRWiener)
    (asnrOut : List RVal → List RVal) (x : List (List RVal))
    (hhf : flt.high_freq = false) (hs : 0 < flt.gaussian_sigma)
    (hx : x ≠ []) :
    ASNRWiener.call flt asnrOut x =
        Except.error (PyErr.nameError "ART_NUMPY_DTYPE") ∧
      ∀ (flt2 : ASNRWiener) (g : List RVal → List RVal)
        (y : List (List RVal)),
        (flt2.high_freq = true ∨ flt2.gaussian_sigma = 0) →
        ∃ out, ASNRWiener.call flt2 g y = Except.ok out := by
  constructor
  · have he : computeNoise flt =
        Except.error (PyErr.nameError "ART_NUMPY_DTYPE") := by
      unfold computeNoise
      simp [hhf, hs.ne']
    cases x with
    | nil => exact absurd rfl hx
    | cons xi rest =>
        unfold ASNRWiener.call
        rw [he]
  · intro flt2 g y hok
    exact ⟨y.map (wienerItem g), call_eq_map g hok y⟩

/-- Witness for C10: the concrete low-frequency filter fails with the
`NameError` on a one-item batch. -/
theorem C10_lowfreq_branch_nameerror_witness :
    (demoLowFreqFilter.high_freq = false ∧
        0 < demoLowFreqFilter.gaussian_sigma ∧
        ([[RVal.fin 0]] : List (List RVal)) ≠ []) ∧
      ASNRWiener.call demoLowFreqFilter id [[RVal.fin 0]] =
        Except.error (PyErr.nameError "ART_NUMPY_DTYPE") :=
  ⟨⟨rfl, by decide, by decide⟩,
    (C10_lowfreq_branch_nameerror demoLowFreqFilter id [[RVal.fin 0]] rfl
        (by decide) (by decide)).1⟩
